import Mathlib

/-!
Verification of the ROMS webhook ingestion and idempotent reconciliation
pipeline (`backend-v2`), shallowly embedded in Lean 4.

The embedding follows the Python sources:
* `services/webhook_parser.py` — content normalizer (freeform labeled text,
  chat-embed envelope, flat JSON auto-detection);
* `services/order_processor.py` — upsert engine and event log;
* `services/webhook_queue.py` — queue worker retry / dead-letter loop and
  dead-letter listing;
* `database/schemas.py`, `database/models.py` — payload and entity shapes.

Machine conventions used throughout:
* Python `float` currency values are modelled as `ℚ` (the pipeline only
  parses decimal literals and compares for equality);
* `datetime` instants are modelled abstractly by `DateTime`: `stamp` orders
  instants, `hms` records the `strftime('%I:%M:%S %p')` rendering of the
  instant (the pipeline only stores these, never computes with them);
* Python dicts holding parsed webhook fields are association lists with
  first-set key position and in-place overwrite, as in CPython;
* exceptions are `Except String`.
-/

namespace ROMS

/-- A UTC instant, abstractly: `stamp` distinguishes and orders instants,
`hms` is the `strftime('%I:%M:%S %p')` rendering that
`parse_refract_message` stores under `order_time`. -/
structure DateTime where
  stamp : Nat
  hms : String
deriving DecidableEq

/-- A parsed webhook field value (the `any` in Python's `Dict[str, any]`):
a string, a float (as `ℚ`), an int, a datetime, or Python `None`
(`parse_refract_message` stores `None` under `status` for an unrecognized
status token). -/
inductive PyVal where
  | s : String → PyVal
  | f : ℚ → PyVal
  | i : Int → PyVal
  | dt : DateTime → PyVal
  | pyNone : PyVal
deriving DecidableEq

/-- A Python dict with string keys: association list, first occurrence of a
key is authoritative and `dictSet` overwrites in place (CPython keeps the
original insertion position on overwrite). -/
abbrev Dict := List (String × PyVal)

/-- `d[k] = v` on a Python dict: overwrite in place if present, else append. -/
def dictSet : Dict → String → PyVal → Dict
  | [], k, v => [(k, v)]
  | (k', v') :: rest, k, v =>
      if k' = k then (k, v) :: rest else (k', v') :: dictSet rest k v

/-- `d.get(k)` on a Python dict: value at the first (unique) occurrence of
the key. -/
def dictGet? : Dict → String → Option PyVal
  | [], _ => none
  | (k', v) :: rest, k => if k' = k then some v else dictGet? rest k

/-! ### String machinery for the bespoke regexes of `webhook_parser.py`

Every extraction regex in `parse_refract_message` has the shape
`LABEL\n<value-part>` with `re.IGNORECASE`, searched by `re.search`
(leftmost match).  For the text-valued labels the value part is
`(.*?)(?:\n|$)`, i.e. the run of characters up to the next newline or the
end of the text; for the money labels it is `\$?([\d,]+\.?\d*)`; for
`Quantity` it is `(\d+)`. -/

/-- Case-insensitive "pattern matches at the head of the text" (ASCII label
patterns under `re.IGNORECASE`). -/
def ciMatchL : List Char → List Char → Bool
  | [], _ => true
  | _ :: _, [] => false
  | p :: ps, c :: cs => p.toLower == c.toLower && ciMatchL ps cs

/-- Case-sensitive "needle matches at the head of the haystack" (Python
`in` is case-sensitive). -/
def startsWithL : List Char → List Char → Bool
  | _, [] => true
  | [], _ :: _ => false
  | c :: cs, d :: ds => c == d && startsWithL cs ds

/-- Python substring test `needle in hay`. -/
def hasSub : List Char → List Char → Bool
  | [], needle => startsWithL [] needle
  | c :: cs, needle => startsWithL (c :: cs) needle || hasSub cs needle

/-- The characters `(.*?)(?:\n|$)` captures when anchored at `cs`: the run
up to the next newline or the end (`.` does not match `\n`; with `$` the
non-greedy group always succeeds there). -/
def takeLine (cs : List Char) : List Char :=
  cs.takeWhile (fun c => c != '\n')

/-- Python `str.strip()` whitespace set (ASCII, which is all the parsed
payloads contain). -/
def isPyWs (c : Char) : Bool :=
  c == ' ' || c == '\t' || c == '\n' || c == '\r' || c == '\x0b' || c == '\x0c'

/-- Python `str.strip()`. -/
def pyStrip (s : String) : String :=
  String.mk (((s.data.dropWhile isPyWs).reverse.dropWhile isPyWs).reverse)

/-- Python `str.lower()` (ASCII). -/
def pyLower (s : String) : String :=
  String.mk (s.data.map Char.toLower)

/-- Python `str.lstrip('#')`. -/
def lstripHash (s : String) : String :=
  String.mk (s.data.dropWhile (fun c => c == '#'))

/-- First alternative of an alternation `(?:P₁|P₂|…)` that matches at this
position (a Python regex alternation tries alternatives left to right; a
greedy optional group such as `(?: Number)?` is the two-alternative case
with the longer form first). -/
def firstAltMatch (pats : List (List Char)) (cs : List Char) : Option (List Char) :=
  match pats with
  | [] => none
  | p :: rest =>
      if ciMatchL p cs then some (cs.drop p.length) else firstAltMatch rest cs

/-- `re.search` for a label alternation followed by an always-matching
value part: remainder of the text after the leftmost label match. -/
def reSearchAlt (pats : List (List Char)) : List Char → Option (List Char)
  | [] => firstAltMatch pats []
  | c :: cs =>
      match firstAltMatch pats (c :: cs) with
      | some r => some r
      | none => reSearchAlt pats cs

/-- Is the character in the class `[\d,]`? -/
def isDigitComma (c : Char) : Bool := c.isDigit || c == ','

/-- The string `\$?([\d,]+\.?\d*)` captures when anchored at `rest`:
optionally skip one `$` (with backtracking, a `$` not followed by a class
character cannot be re-used as one), then require at least one `[\d,]`
character, then greedily an optional `.` with trailing digits.  `none`
when the value part does not match at this position. -/
def numCapture (rest : List Char) : Option String :=
  let rest2 := match rest with
    | '$' :: r => r
    | _ => rest
  let intPart := rest2.takeWhile isDigitComma
  if intPart.isEmpty then none
  else
    match rest2.drop intPart.length with
    | '.' :: r => some (String.mk (intPart ++ '.' :: r.takeWhile Char.isDigit))
    | _ => some (String.mk intPart)

/-- `re.search` for `LABEL\n\$?([\d,]+\.?\d*)`: the captured group at the
leftmost position where both the label and the numeric value part match. -/
def reSearchNum (pat : List Char) : List Char → Option String
  | [] => none
  | c :: cs =>
      if ciMatchL pat (c :: cs) then
        match numCapture ((c :: cs).drop pat.length) with
        | some s => some s
        | none => reSearchNum pat cs
      else reSearchNum pat cs

/-- Decimal digits to a natural number. -/
def digitsToNat (ds : List Char) : Nat :=
  ds.foldl (fun n c => n * 10 + (c.toNat - '0'.toNat)) 0

/-- `re.search` for `Quantity\n(\d+)` followed by Python `int()` on the
capture. -/
def reSearchDigits (pat : List Char) : List Char → Option Nat
  | [] => none
  | c :: cs =>
      if ciMatchL pat (c :: cs) then
        let ds := ((c :: cs).drop pat.length).takeWhile Char.isDigit
        if ds.isEmpty then reSearchDigits pat cs else some (digitsToNat ds)
      else reSearchDigits pat cs

/-- Python `float(s)` on a string already matched by `[\d,]+(\.\d*)?` with
the commas removed first (`price_str.replace(',', '')`): `none` models the
`ValueError` raised when nothing but commas was captured. -/
def pyFloat (s : String) : Option ℚ :=
  let cs := s.data.filter (fun c => c != ',')
  let intD := cs.takeWhile Char.isDigit
  match cs.drop intD.length with
  | [] => if intD.isEmpty then none else some (digitsToNat intD)
  | '.' :: fr =>
      if fr.all Char.isDigit then
        if intD.isEmpty && fr.isEmpty then none
        else some ((digitsToNat intD : ℚ) + (digitsToNat fr : ℚ) / ((10 : ℚ) ^ fr.length))
      else none
  | _ => none

/-- Label search for the text-valued regexes `LABEL\n(.*?)(?:\n|$)` (with
alternation between the given label spellings), returning the stripped
captured group. -/
def findLabelAlt (labels : List String) (cs : List Char) : Option String :=
  (reSearchAlt (labels.map (fun l => l.data ++ ['\n'])) cs).map
    (fun rest => pyStrip (String.mk (takeLine rest)))

/-- Single-label form of `findLabelAlt`. -/
def findLabel1 (label : String) (cs : List Char) : Option String :=
  findLabelAlt [label] cs

/-- The money-label search `LABEL\n\$?([\d,]+\.?\d*)`. -/
def findNumCap (label : String) (cs : List Char) : Option String :=
  reSearchNum (label.data ++ ['\n']) cs

/-- `Order Number\n#?(.*?)(?:\n|$)`: the greedy `#?` consumes one leading
`#`, the stripped capture is then `lstrip('#')`-ed. -/
def findOrderNumber (cs : List Char) : Option String :=
  (reSearchAlt [("Order Number").data ++ ['\n']] cs).map (fun rest =>
    let rest2 := match rest with
      | '#' :: r => r
      | _ => rest
    lstripHash (pyStrip (String.mk (takeLine rest2))))

/-! ### `parse_refract_message` (webhook_parser.py:9-131) -/

/-- The parser's status allow-list (`webhook_parser.py:99-107`; note it has
no `refunded` entry, unlike the processor's map). -/
def parserStatusPairs : List (String × String) :=
  [("pending", "pending"), ("processing", "processing"), ("shipped", "shipped"),
   ("delivered", "delivered"), ("cancelled", "cancelled"), ("verified", "verified"),
   ("unverified", "unverified")]

/-- `data['status'] = status_map.get(status, None)`: the key is set even
when the lowercased token is unrecognized — to Python `None`. -/
def statusVal (v : String) : PyVal :=
  match List.lookup (pyLower v) parserStatusPairs with
  | some s => PyVal.s s
  | none => PyVal.pyNone

/-- `if found: data[key] = value` — the shape of every optional assignment
in `parse_refract_message`. -/
def setOpt (key : String) (found : Option PyVal) (d : Dict) : Dict :=
  match found with
  | some v => dictSet d key v
  | none => d

/-- The `Price` block: on a capture, `float` it (commas removed) and store
it under both `price` and `total` ("Total = Price if not specified"); a
`float` failure is a raised `ValueError`. -/
def stepPrice (cap : Option String) (d : Dict) : Except String Dict :=
  match cap with
  | none => Except.ok d
  | some s =>
      match pyFloat s with
      | some q => Except.ok (dictSet (dictSet d "price" (PyVal.f q)) "total" (PyVal.f q))
      | none => Except.error "could not convert string to float"

/-- The `Total` / `Commission` blocks: on a capture, `float` it and store
it under `key`; a `float` failure is a raised `ValueError`. -/
def stepNum (key : String) (cap : Option String) (d : Dict) : Except String Dict :=
  match cap with
  | none => Except.ok d
  | some s =>
      match pyFloat s with
      | some q => Except.ok (dictSet d key (PyVal.f q))
      | none => Except.error "could not convert string to float"

/-- `parse_refract_message(text)` (webhook_parser.py:9-131), with the
ambient `datetime.utcnow()` passed in as `now`.  Field blocks appear in
source order; `quantity` defaults to 1 when no `Quantity` label matches;
`order_date`/`order_time` are always stamped with `now`. -/
def parse_refract_message (now : DateTime) (text : String) : Except String Dict :=
  let cs := text.data
  let d := setOpt "product" ((findLabel1 "Product" cs).map PyVal.s) []
  match stepPrice (findNumCap "Price" cs) d with
  | Except.error e => Except.error e
  | Except.ok d =>
  let d := setOpt "profile" ((findLabel1 "Profile" cs).map PyVal.s) d
  let d := setOpt "proxy_list"
      ((findLabelAlt ["Proxy Details", "Proxy List", "Proxy"] cs).map PyVal.s) d
  let d := setOpt "order_number" ((findOrderNumber cs).map PyVal.s) d
  let d := setOpt "email" ((findLabel1 "Email" cs).map PyVal.s) d
  let d := dictSet d "quantity"
      (PyVal.i (((reSearchDigits (("Quantity").data ++ ['\n']) cs).getD 1 : Nat) : Int))
  match stepNum "total" (findNumCap "Total" cs) d with
  | Except.error e => Except.error e
  | Except.ok d =>
  match stepNum "commission" (findNumCap "Commission" cs) d with
  | Except.error e => Except.error e
  | Except.ok d =>
  let d := setOpt "tracking_number"
      ((findLabelAlt ["Tracking Number", "Tracking"] cs).map PyVal.s) d
  let d := setOpt "reference_number"
      ((findLabelAlt ["Reference #", "Reference"] cs).map PyVal.s) d
  let d := setOpt "status" ((findLabel1 "Status" cs).map statusVal) d
  let d := setOpt "payment_method"
      ((findLabelAlt ["Payment Method", "Payment"] cs).map PyVal.s) d
  let d := setOpt "shipping_address" ((findLabel1 "Shipping Address" cs).map PyVal.s) d
  let d := setOpt "shipping_method" ((findLabel1 "Shipping Method" cs).map PyVal.s) d
  let d := dictSet d "order_date" (PyVal.dt now)
  Except.ok (dictSet d "order_time" (PyVal.s now.hms))

/-- `is_text_webhook(content)` (webhook_parser.py:134-147): case-sensitive
substring check for the five indicators. -/
def is_text_webhook (content : String) : Bool :=
  ["Successful Checkout", "Product\n", "Price\n", "Order Number\n", "Email\n"].any
    (fun ind => hasSub content.data ind.data)

/-! ### `parse_discord_embed` and `parse_webhook_content`
(webhook_parser.py:150-245) -/

/-- One entry of an embed's `fields` list. -/
structure EmbedField where
  name : Option String
  value : Option String
deriving DecidableEq

/-- One chat-platform embed: `author_name` is `embed['author']['name']`
when both keys exist; `fields` is `[]` when the `fields` key is absent
(the extraction loop treats the two the same). -/
structure Embed where
  author_name : Option String
  title : Option String
  description : Option String
  fields : List EmbedField
deriving DecidableEq

/-- A successfully `json.loads`-ed dict that contains an `embeds` key. -/
structure EmbedPayload where
  embeds : List Embed
deriving DecidableEq

/-- The `text_parts` extraction of `parse_discord_embed`: author name,
title, description, then each field's name and value, in order. -/
def embedTextParts (e : Embed) : List String :=
  (match e.author_name with | some n => [n] | none => []) ++
  (match e.title with | some t => [t] | none => []) ++
  (match e.description with | some d => [d] | none => []) ++
  e.fields.foldr (fun f acc =>
    (match f.name with | some n => [n] | none => []) ++
    (match f.value with | some v => [v] | none => []) ++ acc) []

/-- `parse_discord_embed(payload)` (webhook_parser.py:150-201) on a payload
that does contain `embeds` (the only way `parse_webhook_content` calls it;
on a dict without `embeds` the Python function returns it unchanged).
Raises `ValueError` on an empty embeds list, else joins the text parts
with `\n` and parses the result as a Refract message. -/
def parse_discord_embed (now : DateTime) (p : EmbedPayload) : Except String Dict :=
  match p.embeds with
  | [] => Except.error "Discord webhook has no embeds"
  | e :: _ => parse_refract_message now (String.intercalate "\n" (embedTextParts e))

/-- Outcome of `json.loads(content)` when it succeeds: either a dict with
an `embeds` key, or any other dict, abstracted as a field map.  The
`loads` oracle is passed into `parse_webhook_content` as an external
collaborator (the `json` library); `none` models a raised exception. -/
inductive LoadedJson where
  | withEmbeds : EmbedPayload → LoadedJson
  | flat : Dict → LoadedJson

/-- The `try: payload = json.loads(content); … except: pass` block shared
by the three JSON branches of `parse_webhook_content`: `none` when the
load or the embed parse raises (swallowed by the bare `except`). -/
def tryLoads (loads : String → Option LoadedJson) (now : DateTime)
    (content : String) : Option Dict :=
  match loads content with
  | none => none
  | some (LoadedJson.flat d) => some d
  | some (LoadedJson.withEmbeds p) =>
      match parse_discord_embed now p with
      | Except.ok d => some d
      | Except.error _ => none

/-- `content.strip().startswith('{') and content.strip().endswith('}')`. -/
def looksJson (content : String) : Bool :=
  ((pyStrip content).data.head? == some '{') &&
  ((pyStrip content).data.getLast? == some '}')

/-- `parse_webhook_content(content, content_type)` (webhook_parser.py:204-245):
content-type-hinted JSON attempt, then brace-delimited JSON attempt, then
the freeform-text branch, then a last-resort JSON attempt whose failure is
the final `ValueError`. -/
def parse_webhook_content (loads : String → Option LoadedJson) (now : DateTime)
    (content : String) (content_type : String) : Except String Dict :=
  let step3 : Except String Dict :=
    if is_text_webhook content then parse_refract_message now content
    else
      match tryLoads loads now content with
      | some d => Except.ok d
      | none => Except.error "Could not parse webhook content as JSON or text format"
  let step2 : Except String Dict :=
    if looksJson content then
      match tryLoads loads now content with
      | some d => Except.ok d
      | none => step3
    else step3
  if !content_type.isEmpty && hasSub (pyLower content_type).data ("json").data then
    match tryLoads loads now content with
    | some d => Except.ok d
    | none => step2
  else step2

/-! ### `WebhookPayload` (database/schemas.py:77-137)

The validated webhook payload.  `EmailStr` validation is abstracted to
`String`; note that `WebhookPayload`, unlike `OrderBase`, carries **no**
`round_currency` validator. -/

/-- `WebhookPayload`: `order_number` required, every alias field optional
and defaulted to `None`. -/
structure WebhookPayload where
  order_number : String
  product : Option String := none
  product_name : Option String := none
  item : Option String := none
  price : Option ℚ := none
  unit_price : Option ℚ := none
  total : Option ℚ := none
  total_price : Option ℚ := none
  amount : Option ℚ := none
  commission : Option ℚ := none
  profit : Option ℚ := none
  quantity : Option Int := none
  qty : Option Int := none
  email : Option String := none
  customer_email : Option String := none
  customer_name : Option String := none
  name : Option String := none
  profile : Option String := none
  proxy_list : Option String := none
  proxy : Option String := none
  reference : Option String := none
  reference_number : Option String := none
  status : Option String := none
  order_status : Option String := none
  tracking : Option String := none
  tracking_number : Option String := none
  shipment_id : Option String := none
  order_date : Option DateTime := none
  created_at : Option DateTime := none
  date : Option DateTime := none
  order_time : Option String := none
  payment_method : Option String := none
  shipping_address : Option String := none
  shipping_method : Option String := none
  notes : Option String := none
deriving DecidableEq

/-! ### Python truthiness for the `or`-chains of `_map_webhook_to_order` -/

/-- Truthiness of an optional string: `None` and `""` are falsy. -/
def truthyS : Option String → Bool
  | none => false
  | some s => !s.isEmpty

/-- Truthiness of an optional float: `None` and `0.0` are falsy. -/
def truthyQ : Option ℚ → Bool
  | none => false
  | some q => q != 0

/-- Truthiness of an optional int: `None` and `0` are falsy. -/
def truthyI : Option Int → Bool
  | none => false
  | some n => n != 0

/-- Python `a or b` on optional strings: `a` if truthy, else `b` as-is. -/
def pyOrS (a b : Option String) : Option String :=
  if truthyS a then a else b

/-- Python `a or b` on optional floats. -/
def pyOrQ (a b : Option ℚ) : Option ℚ :=
  if truthyQ a then a else b

/-- Python `a or d` where `d` is a string literal default. -/
def pyOrSD (a : Option String) (d : String) : String :=
  if truthyS a then a.getD "" else d

/-- Python `a or d` where `d` is a float literal default. -/
def pyOrQD (a : Option ℚ) (d : ℚ) : ℚ :=
  if truthyQ a then a.getD 0 else d

/-- Python `a or d` where `d` is an int literal default. -/
def pyOrID (a : Option Int) (d : Int) : Int :=
  if truthyI a then a.getD 0 else d

/-- Python `a or b` on optional datetimes (a `datetime` object is always
truthy). -/
def pyOrD (a b : Option DateTime) : Option DateTime :=
  if a.isSome then a else b

/-! ### `OrderProcessor._map_webhook_to_order` (order_processor.py:48-177) -/

/-- The processor's status allow-list (order_processor.py:118-127; it
includes `refunded`, which the freeform parser's map lacks). -/
def processorStatusPairs : List (String × String) :=
  [("pending", "pending"), ("processing", "processing"), ("shipped", "shipped"),
   ("delivered", "delivered"), ("cancelled", "cancelled"), ("refunded", "refunded"),
   ("verified", "verified"), ("unverified", "unverified")]

/-- `status_map.get(status_str.lower(), None)` guarded by
`if status_str:` — a falsy (absent or empty) status string stays unset. -/
def mapProcessorStatus (status_str : Option String) : Option String :=
  match status_str with
  | none => none
  | some s => if s.isEmpty then none else List.lookup (pyLower s) processorStatusPairs

/-- The dict `_map_webhook_to_order` returns, with its value shapes:
`product`, `price`, `commission`, `quantity` and `order_date` always carry
a value (they end in a literal default, or in `datetime.utcnow()`), the
rest are `None`-able. -/
structure OrderData where
  order_number : String
  product : String
  price : ℚ
  total : Option ℚ
  commission : ℚ
  quantity : Int
  email : Option String
  customer_name : Option String
  profile : Option String
  proxy_list : Option String
  reference_number : Option String
  status : Option String
  tracking_number : Option String
  order_date : DateTime
  order_time : Option String
  payment_method : Option String
  shipping_address : Option String
  shipping_method : Option String
  notes : Option String
deriving DecidableEq

/-- `OrderProcessor._map_webhook_to_order(payload)` with the ambient
`datetime.utcnow()` passed as `now`.  Every alias chain is the source's
`or`-chain, in source order — in particular
`payload.tracking or payload.tracking_number or payload.shipment_id` and
`payload.reference or payload.reference_number`. -/
def _map_webhook_to_order (now : DateTime) (p : WebhookPayload) : OrderData :=
  { order_number := p.order_number
    product := pyOrSD p.product (pyOrSD p.product_name (pyOrSD p.item "Unknown Product"))
    price := pyOrQD p.price (pyOrQD p.unit_price 0)
    total := pyOrQ p.total (pyOrQ p.total_price p.amount)
    commission := pyOrQD p.commission (pyOrQD p.profit 0)
    quantity := pyOrID p.quantity (pyOrID p.qty 1)
    email := pyOrS p.email p.customer_email
    customer_name := pyOrS p.customer_name p.name
    profile := p.profile
    proxy_list := pyOrS p.proxy_list p.proxy
    reference_number := pyOrS p.reference p.reference_number
    status := mapProcessorStatus (pyOrS p.status p.order_status)
    tracking_number := pyOrS p.tracking (pyOrS p.tracking_number p.shipment_id)
    order_date := (pyOrD p.order_date (pyOrD p.created_at p.date)).getD now
    order_time := p.order_time
    payment_method := p.payment_method
    shipping_address := p.shipping_address
    shipping_method := p.shipping_method
    notes := p.notes }

/-! ### The Order store and the upsert engine
(`database/models.py`, `order_processor.py:179-243`) -/

/-- The persistent `Order` row (models.py:33-86): `order_number` unique and
non-null, every other mapped column nullable.  Columns the pipeline never
writes (`qty_received`, `posted_date`, …) are omitted. -/
structure Order where
  order_number : String
  product : Option String
  price : Option ℚ
  total : Option ℚ
  commission : Option ℚ
  quantity : Option Int
  email : Option String
  customer_name : Option String
  profile : Option String
  proxy_list : Option String
  reference_number : Option String
  status : Option String
  tracking_number : Option String
  order_date : Option DateTime
  order_time : Option String
  payment_method : Option String
  shipping_address : Option String
  shipping_method : Option String
  notes : Option String
deriving DecidableEq

/-- `Order(**order_data)`: the row a freshly mapped dict constructs. -/
def orderOfData (d : OrderData) : Order :=
  { order_number := d.order_number
    product := some d.product
    price := some d.price
    total := d.total
    commission := some d.commission
    quantity := some d.quantity
    email := d.email
    customer_name := d.customer_name
    profile := d.profile
    proxy_list := d.proxy_list
    reference_number := d.reference_number
    status := d.status
    tracking_number := d.tracking_number
    order_date := some d.order_date
    order_time := d.order_time
    payment_method := d.payment_method
    shipping_address := d.shipping_address
    shipping_method := d.shipping_method
    notes := d.notes }

/-- An `OrderEvent` row (models.py:89-107): the `description`/`metadata`
payload is abstracted to the list of changed field names the description
enumerates (empty for `created`). -/
structure OrderEvent where
  order_number : String
  event_type : String
  changes : List String
deriving DecidableEq

/-- The store: `orders` in insertion order, `events` append-only. -/
structure Db where
  orders : List Order
  events : List OrderEvent
deriving DecidableEq

/-- `OrderProcessor._get_order_by_number` (order_processor.py:179-184). -/
def _get_order_by_number (db : Db) (num : String) : Option Order :=
  db.orders.find? (fun o => o.order_number == num)

/-- `OrderProcessor._create_new_order` (order_processor.py:186-206): add
the row and one `created` event in a single transaction. -/
def _create_new_order (db : Db) (d : OrderData) : Db :=
  { orders := db.orders ++ [orderOfData d],
    events := db.events ++ [⟨d.order_number, "created", []⟩] }

/-- One iteration of the update loop of `_update_existing_order`
(order_processor.py:219-227): skip a `None` value; otherwise compare with
the stored value and on difference overwrite it and record the field name. -/
def applyUpd {α : Type} [DecidableEq α] (key : String) (new : Option α)
    (old : Option α) (cs : List String) : Option α × List String :=
  match new with
  | none => (old, cs)
  | some v => if old = some v then (old, cs) else (some v, cs ++ [key])

/-- The field loop of `OrderProcessor._update_existing_order`
(order_processor.py:208-243): fields are visited in the insertion order of
the `_map_webhook_to_order` dict literal, `order_number` and `source` are
skipped; returns the updated row and the list of changed field names. -/
def _update_existing_order (o : Order) (d : OrderData) : Order × List String :=
  let (product, cs) := applyUpd "product" (some d.product) o.product []
  let (price, cs) := applyUpd "price" (some d.price) o.price cs
  let (total, cs) := applyUpd "total" d.total o.total cs
  let (commission, cs) := applyUpd "commission" (some d.commission) o.commission cs
  let (quantity, cs) := applyUpd "quantity" (some d.quantity) o.quantity cs
  let (email, cs) := applyUpd "email" d.email o.email cs
  let (customer_name, cs) := applyUpd "customer_name" d.customer_name o.customer_name cs
  let (profile, cs) := applyUpd "profile" d.profile o.profile cs
  let (proxy_list, cs) := applyUpd "proxy_list" d.proxy_list o.proxy_list cs
  let (reference_number, cs) :=
    applyUpd "reference_number" d.reference_number o.reference_number cs
  let (status, cs) := applyUpd "status" d.status o.status cs
  let (tracking_number, cs) :=
    applyUpd "tracking_number" d.tracking_number o.tracking_number cs
  let (order_date, cs) := applyUpd "order_date" (some d.order_date) o.order_date cs
  let (order_time, cs) := applyUpd "order_time" d.order_time o.order_time cs
  let (payment_method, cs) := applyUpd "payment_method" d.payment_method o.payment_method cs
  let (shipping_address, cs) :=
    applyUpd "shipping_address" d.shipping_address o.shipping_address cs
  let (shipping_method, cs) :=
    applyUpd "shipping_method" d.shipping_method o.shipping_method cs
  let (notes, cs) := applyUpd "notes" d.notes o.notes cs
  ({ order_number := o.order_number
     product := product
     price := price
     total := total
     commission := commission
     quantity := quantity
     email := email
     customer_name := customer_name
     profile := profile
     proxy_list := proxy_list
     reference_number := reference_number
     status := status
     tracking_number := tracking_number
     order_date := order_date
     order_time := order_time
     payment_method := payment_method
     shipping_address := shipping_address
     shipping_method := shipping_method
     notes := notes }, cs)

/-- Commit of `_update_existing_order`: the row is mutated in place and an
`updated` event enumerating the changes is appended exactly when the
changed set is non-empty. -/
def updateCommit (db : Db) (o : Order) (d : OrderData) : Db :=
  let r := _update_existing_order o d
  { orders := db.orders.map (fun x => if x.order_number == o.order_number then r.1 else x),
    events := db.events ++
      (if r.2 = [] then [] else [⟨o.order_number, "updated", r.2⟩]) }

/-- `OrderProcessor.create_order_from_webhook` (order_processor.py:30-46),
the upsert engine: map the payload, look the order up by number, then
create or update.  `now` is the ambient `datetime.utcnow()`. -/
def create_order_from_webhook (now : DateTime) (p : WebhookPayload) (db : Db) : Db :=
  let d := _map_webhook_to_order now p
  match _get_order_by_number db d.order_number with
  | some o => updateCommit db o d
  | none => _create_new_order db d

/-! ### The queue worker retry / dead-letter loop (webhook_queue.py) -/

/-- A `QueueEnvelope`: the raw message with its mutable `retry_count`
(the opaque `data`/metadata is abstracted to `payload`). -/
structure Envelope where
  payload : String
  retry_count : Nat
deriving DecidableEq

/-- A dead-letter entry (webhook_queue.py:147-151): the envelope plus the
back-filled `failed_at` timestamp and captured error string. -/
structure DeadEntry where
  env : Envelope
  error : Option String
  failed_at : Nat
deriving DecidableEq

/-- The queue/worker shared state: FIFO queue, dead-letter deque (newest
appended at the back), and the two counters the worker loop touches. -/
structure QueueState where
  queue : List Envelope
  dead : List DeadEntry
  total_processed : Nat
  total_failed : Nat
deriving DecidableEq

/-- `deque(maxlen=cap).append`: drop from the front on overflow. -/
def dlAppend (cap : Nat) (dl : List DeadEntry) (e : DeadEntry) : List DeadEntry :=
  let dl' := dl ++ [e]
  if cap < dl'.length then dl'.drop (dl'.length - cap) else dl'

/-- One pass of the `WebhookQueue._worker` loop body
(webhook_queue.py:115-155) under a processing outcome `process`: dequeue
the head; on success count it processed; on an exception increment the
envelope's `retry_count`, then either re-enqueue it at the back
(`retry_count ≤ max_retries`) or move it to the dead-letter deque with the
error and timestamp and count the failure.  An empty queue is the dequeue
timeout (`continue`). -/
def worker_step (maxRetries cap : Nat) (process : Envelope → Except String Unit)
    (t : Nat) (st : QueueState) : QueueState :=
  match st.queue with
  | [] => st
  | m :: rest =>
      match process m with
      | Except.ok _ =>
          { st with queue := rest, total_processed := st.total_processed + 1 }
      | Except.error e =>
          let m' := { m with retry_count := m.retry_count + 1 }
          if m'.retry_count ≤ maxRetries then
            { st with queue := rest ++ [m'] }
          else
            { st with queue := rest,
                      dead := dlAppend cap st.dead ⟨m', some e, t⟩,
                      total_failed := st.total_failed + 1 }

/-- `WebhookQueue.get_dead_letters(limit)` (webhook_queue.py:237-239):
`list(self.dead_letter_queue)[-limit:]`.  A Python slice `[-limit:]` with
`limit = 0` is `[0:]`, the whole list; with `limit ≥ 1` it is the last
`min(limit, len)` elements, kept in deque (oldest-first) order. -/
def get_dead_letters (dl : List DeadEntry) (limit : Nat) : List DeadEntry :=
  if limit = 0 then dl else dl.drop (dl.length - limit)

/-! ### `round_currency` (database/schemas.py:42-47) -/

/-- Rounding to 2 decimal places as the `OrderBase.round_currency`
validator does (`round(v, 2)`).  Python `round` is round-half-even; on
non-tie values — the only ones exercised here — it agrees with Mathlib's
`round`. -/
def round2 (q : ℚ) : ℚ := (round (q * 100) : ℤ) / 100

/-- The `OrderBase.round_currency` validator itself, applied to a
`price`/`total`/`commission` value.  It belongs to `OrderBase` (and so to
`OrderCreate`/`OrderResponse`); `WebhookPayload` does not carry it. -/
def round_currency (v : Option ℚ) : Option ℚ :=
  match v with
  | none => none
  | some q => some (round2 q)

/-! ### Helper observations used by several claims -/

/-- Lookup in a normalizer result: `none` both for a raised exception and
for an absent key. -/
def parsedGet (e : Except String Dict) (k : String) : Option PyVal :=
  match e with
  | Except.ok d => dictGet? d k
  | Except.error _ => none

/-- Did the normalizer return (rather than raise)? -/
def parsedOk (e : Except String Dict) : Bool :=
  match e with
  | Except.ok _ => true
  | Except.error _ => false

theorem dictGet?_dictSet_self (d : Dict) (k : String) (v : PyVal) :
    dictGet? (dictSet d k v) k = some v := by
  induction d with
  | nil => simp [dictSet, dictGet?]
  | cons a rest ih =>
      by_cases h : a.1 = k <;> simp [dictSet, dictGet?, h, ih]

theorem dictGet?_dictSet_ne (d : Dict) (k k' : String) (v : PyVal) (h : k' ≠ k) :
    dictGet? (dictSet d k v) k' = dictGet? d k' := by
  have h' : k ≠ k' := Ne.symm h
  induction d with
  | nil => simp [dictSet, dictGet?, h']
  | cons a rest ih =>
      by_cases ha : a.1 = k
      · simp [dictSet, dictGet?, ha, h']
      · simp [dictSet, dictGet?, ha, ih]

theorem setOpt_get_ne (key : String) (f : Option PyVal) (d : Dict) (k : String)
    (h : k ≠ key) : dictGet? (setOpt key f d) k = dictGet? d k := by
  cases f <;> simp [setOpt, dictGet?_dictSet_ne _ _ _ _ h]

theorem stepNum_ok_get (key : String) (cap : Option String) (d d' : Dict) (k : String)
    (hok : stepNum key cap d = Except.ok d') (h : k ≠ key) :
    dictGet? d' k = dictGet? d k := by
  cases cap with
  | none => simp [stepNum] at hok; simp [hok]
  | some s =>
      cases hf : pyFloat s with
      | none => simp [stepNum, hf] at hok
      | some q =>
          simp [stepNum, hf] at hok
          simp [← hok, dictGet?_dictSet_ne _ _ _ _ h]

theorem applyUpd_same {α : Type} [DecidableEq α] (k : String) (v : Option α)
    (cs : List String) : applyUpd k v v cs = (v, cs) := by
  cases v <;> simp [applyUpd]

/-- Re-applying a freshly created row's own data changes nothing and
records no change. -/
theorem update_self (d : OrderData) :
    _update_existing_order (orderOfData d) d = (orderOfData d, []) := by
  simp [_update_existing_order, orderOfData, applyUpd_same]

/-- Rewriting rows at a key misses every row that does not carry it. -/
theorem map_keep_ne (l : List Order) (o : Order) (k : String)
    (h : ∀ x ∈ l, x.order_number ≠ k) :
    l.map (fun x => if x.order_number = k then o else x) = l := by
  induction l with
  | nil => rfl
  | cons a t ih =>
      simp only [List.map_cons, if_neg (h a (by simp)),
        ih (fun x hx => h x (by simp [hx]))]

theorem filter_false_nil (l : List Order) (k : String)
    (h : ∀ x ∈ l, x.order_number ≠ k) :
    l.filter (fun o => o.order_number == k) = [] := by
  induction l with
  | nil => rfl
  | cons a t ih =>
      have ha : ¬(a.order_number == k) = true := by simpa using h a (by simp)
      simp [List.filter_cons, ha, ih (fun x hx => h x (by simp [hx]))]

/-! ## Claims -/

/-- C5 counterexample: with `tracking = "B"` and `tracking_number = "A"`
both present and non-null, the mapped `tracking_number` is `"B"` — the
`tracking` alias wins, not `tracking_number` as the claim states; likewise
`reference = "R1"` beats `reference_number = "R2"`. -/
theorem C5_alias_order_counterexample :
    (_map_webhook_to_order ⟨0, "a"⟩
        { order_number := "X", tracking := some "B", tracking_number := some "A",
          reference := some "R1", reference_number := some "R2" }).tracking_number
        = some "B" ∧
    (_map_webhook_to_order ⟨0, "a"⟩
        { order_number := "X", tracking := some "B", tracking_number := some "A",
          reference := some "R1", reference_number := some "R2" }).tracking_number
        ≠ some "A" ∧
    (_map_webhook_to_order ⟨0, "a"⟩
        { order_number := "X", tracking := some "B", tracking_number := some "A",
          reference := some "R1", reference_number := some "R2" }).reference_number
        = some "R1" ∧
    (_map_webhook_to_order ⟨0, "a"⟩
        { order_number := "X", tracking := some "B", tracking_number := some "A",
          reference := some "R1", reference_number := some "R2" }).reference_number
        ≠ some "R2" := by
  refine ⟨by decide, by decide, by decide, by decide⟩

/-- C5 amended: aliases are scanned in source order with the first
*truthy* (present, non-empty) value winning, and the scan order is
`tracking`, then `tracking_number`, then `shipment_id` for the canonical
`tracking_number`, and `reference`, then `reference_number` for the
canonical `reference_number`. -/
theorem C5_alias_resolution_order (p : WebhookPayload) (now : DateTime) :
    (_map_webhook_to_order now p).tracking_number =
      (if truthyS p.tracking then p.tracking
       else if truthyS p.tracking_number then p.tracking_number
       else p.shipment_id) ∧
    (_map_webhook_to_order now p).reference_number =
      (if truthyS p.reference then p.reference else p.reference_number) := by
  constructor <;> simp [_map_webhook_to_order, pyOrS]

/-- C7: on the embed envelope whose first embed carries only the
description `"Product\nA\nPrice\n$9.99\nOrder Number\n#123\nEmail\ne@x.com"`,
normalization concatenates the (absent) author name, title, the
description and the (absent) field names/values — i.e. exactly the
description — parses it as freeform text, and yields product `"A"`, price
`9.99`, order_number `"123"` (leading `#` stripped) and email
`"e@x.com"`. -/
theorem C7_embed_extraction :
    parse_discord_embed ⟨0, "a"⟩
        ⟨[⟨none, none, some "Product\nA\nPrice\n$9.99\nOrder Number\n#123\nEmail\ne@x.com", []⟩]⟩
      = parse_refract_message ⟨0, "a"⟩
          "Product\nA\nPrice\n$9.99\nOrder Number\n#123\nEmail\ne@x.com" ∧
    parsedGet (parse_discord_embed ⟨0, "a"⟩
        ⟨[⟨none, none, some "Product\nA\nPrice\n$9.99\nOrder Number\n#123\nEmail\ne@x.com", []⟩]⟩)
        "product" = some (PyVal.s "A") ∧
    parsedGet (parse_discord_embed ⟨0, "a"⟩
        ⟨[⟨none, none, some "Product\nA\nPrice\n$9.99\nOrder Number\n#123\nEmail\ne@x.com", []⟩]⟩)
        "price" = some (PyVal.f (999 / 100)) ∧
    parsedGet (parse_discord_embed ⟨0, "a"⟩
        ⟨[⟨none, none, some "Product\nA\nPrice\n$9.99\nOrder Number\n#123\nEmail\ne@x.com", []⟩]⟩)
        "order_number" = some (PyVal.s "123") ∧
    parsedGet (parse_discord_embed ⟨0, "a"⟩
        ⟨[⟨none, none, some "Product\nA\nPrice\n$9.99\nOrder Number\n#123\nEmail\ne@x.com", []⟩]⟩)
        "email" = some (PyVal.s "e@x.com") := by
  have hprice : parsedGet (parse_discord_embed ⟨0, "a"⟩
        ⟨[⟨none, none, some "Product\nA\nPrice\n$9.99\nOrder Number\n#123\nEmail\ne@x.com", []⟩]⟩)
        "price" = (pyFloat "9.99").map PyVal.f := rfl
  have hq : pyFloat "9.99" = some (999 / 100 : ℚ) := by
    have h : pyFloat "9.99" = some ((digitsToNat ['9'] : ℚ) +
        (digitsToNat ['9', '9'] : ℚ) / (10 : ℚ) ^ (['9', '9'].length)) := rfl
    have d1 : digitsToNat ['9'] = 9 := by decide
    have d2 : digitsToNat ['9', '9'] = 99 := by decide
    rw [h, d1, d2]
    norm_num
  refine ⟨rfl, by decide, ?_, by decide, by decide⟩
  rw [hprice, hq]
  rfl

/-- C9: when none of `product`, `product_name`, `item` carries a truthy
(present, non-empty) value, the mapped product is the literal
`"Unknown Product"`, and the created row stores it (never null). -/
theorem C9_product_default (p : WebhookPayload) (now : DateTime)
    (h1 : truthyS p.product = false) (h2 : truthyS p.product_name = false)
    (h3 : truthyS p.item = false) :
    (_map_webhook_to_order now p).product = "Unknown Product" ∧
    (orderOfData (_map_webhook_to_order now p)).product = some "Unknown Product" := by
  have hm : (_map_webhook_to_order now p).product = "Unknown Product" := by
    simp [_map_webhook_to_order, pyOrSD, h1, h2, h3]
  exact ⟨hm, by simp [orderOfData, hm]⟩

/-- C9 witness: the empty payload `{order_number := "X"}`. -/
theorem C9_witness :
    (_map_webhook_to_order ⟨0, "a"⟩ { order_number := "X" }).product = "Unknown Product" ∧
    (orderOfData (_map_webhook_to_order ⟨0, "a"⟩ { order_number := "X" })).product
      = some "Unknown Product" :=
  C9_product_default { order_number := "X" } ⟨0, "a"⟩ (by decide) (by decide) (by decide)

/-- C10: alias fallback is decided by Python truthiness, so an explicit
`price = 0.0` falls through to `unit_price = 5.0` and an explicit
`quantity = 0` falls through to the default `1`. -/
theorem C10_falsy_as_absent (p : WebhookPayload) (now : DateTime) :
    (p.price = some 0 → p.unit_price = some 5 → (_map_webhook_to_order now p).price = 5) ∧
    (p.quantity = some 0 → p.qty = none → (_map_webhook_to_order now p).quantity = 1) := by
  constructor
  · intro hp hu
    simp [_map_webhook_to_order, pyOrQD, truthyQ, hp, hu]
  · intro hq hq'
    simp [_map_webhook_to_order, pyOrID, truthyI, hq, hq']

/-- C10 witness: `price = 0.0, unit_price = 5.0, quantity = 0`. -/
theorem C10_witness :
    (_map_webhook_to_order ⟨0, "a"⟩
        { order_number := "X", price := some 0, unit_price := some 5,
          quantity := some 0 }).price = 5 ∧
    (_map_webhook_to_order ⟨0, "a"⟩
        { order_number := "X", price := some 0, unit_price := some 5,
          quantity := some 0 }).quantity = 1 :=
  ⟨(C10_falsy_as_absent _ _).1 rfl rfl, (C10_falsy_as_absent _ _).2 rfl rfl⟩

/-- C1 counterexample: replaying the identical minimal payload
`{order_number := "X"}` (no explicit order date) at a later instant does
append a second OrderEvent — an `updated` event recording an `order_date`
change — because `_map_webhook_to_order` back-fills `order_date` with
`datetime.utcnow()` on every application. -/
theorem C1_replay_counterexample :
    (create_order_from_webhook ⟨0, "a"⟩ { order_number := "X" } ⟨[], []⟩).events.length = 1 ∧
    (create_order_from_webhook ⟨1, "b"⟩ { order_number := "X" }
        (create_order_from_webhook ⟨0, "a"⟩ { order_number := "X" } ⟨[], []⟩)).events.length
      = 2 ∧
    (create_order_from_webhook ⟨1, "b"⟩ { order_number := "X" }
        (create_order_from_webhook ⟨0, "a"⟩ { order_number := "X" } ⟨[], []⟩)).events.getLast?
      = some ⟨"X", "updated", ["order_date"]⟩ := by
  refine ⟨by decide, by decide, by decide⟩

/-- C1 amended: identical replay is idempotent for payloads that carry an
explicit `order_date` (so that the mapped dict does not depend on the
clock): the second application leaves the store — rows and events —
exactly as the first left it, and exactly one row carries the key. -/
theorem C1_replay_idempotent_with_explicit_date (p : WebhookPayload) (n₁ n₂ : DateTime)
    (db : Db) (hfresh : _get_order_by_number db p.order_number = none)
    (hdate : p.order_date.isSome) :
    create_order_from_webhook n₂ p (create_order_from_webhook n₁ p db)
        = create_order_from_webhook n₁ p db ∧
    ((create_order_from_webhook n₁ p db).orders.filter
        (fun o => o.order_number == p.order_number)).length = 1 := by
  obtain ⟨dt, hdt⟩ := Option.isSome_iff_exists.mp hdate
  have hmap : _map_webhook_to_order n₂ p = _map_webhook_to_order n₁ p := by
    simp [_map_webhook_to_order, pyOrD, hdt]
  have hnum : (_map_webhook_to_order n₁ p).order_number = p.order_number := rfl
  have h1 : create_order_from_webhook n₁ p db
      = _create_new_order db (_map_webhook_to_order n₁ p) := by
    simp only [create_order_from_webhook]
    rw [hnum, hfresh]
  have hfr : List.find? (fun o => o.order_number == p.order_number) db.orders = none := hfresh
  have hmem : ∀ x ∈ db.orders, x.order_number ≠ p.order_number := by
    intro x hx
    simpa using List.find?_eq_none.mp hfr x hx
  have hoo : ((orderOfData (_map_webhook_to_order n₁ p)).order_number == p.order_number)
      = true := by
    simp [orderOfData, _map_webhook_to_order]
  have hfind1 : _get_order_by_number (_create_new_order db (_map_webhook_to_order n₁ p))
      (_map_webhook_to_order n₁ p).order_number
      = some (orderOfData (_map_webhook_to_order n₁ p)) := by
    simp only [_get_order_by_number, _create_new_order, List.find?_append]
    rw [hnum]
    have hnone : db.orders.find? (fun o => o.order_number == p.order_number) = none :=
      List.find?_eq_none.mpr (fun x hx => by simpa using hmem x hx)
    rw [hnone]
    simp [hoo]
  have hupd : updateCommit (_create_new_order db (_map_webhook_to_order n₁ p))
      (orderOfData (_map_webhook_to_order n₁ p)) (_map_webhook_to_order n₁ p)
      = _create_new_order db (_map_webhook_to_order n₁ p) := by
    simp only [updateCommit, update_self]
    have hmem' : ∀ x ∈ db.orders,
        x.order_number ≠ (orderOfData (_map_webhook_to_order n₁ p)).order_number := hmem
    simp [_create_new_order]
    exact map_keep_ne db.orders _ _ hmem'
  have h2 : create_order_from_webhook n₂ p (_create_new_order db (_map_webhook_to_order n₁ p))
      = _create_new_order db (_map_webhook_to_order n₁ p) := by
    simp only [create_order_from_webhook, hmap]
    rw [hfind1]
    exact hupd
  constructor
  · rw [h1, h2]
  · rw [h1]
    simp [_create_new_order, List.filter_append, filter_false_nil db.orders _ hmem,
          List.filter_cons, hoo]

/-- C1 witness: a payload with an explicit order date, applied twice at
distinct instants over the empty store. -/
theorem C1_witness :
    create_order_from_webhook ⟨1, "b"⟩ { order_number := "X", order_date := some ⟨5, "z"⟩ }
        (create_order_from_webhook ⟨0, "a"⟩
          { order_number := "X", order_date := some ⟨5, "z"⟩ } ⟨[], []⟩)
      = create_order_from_webhook ⟨0, "a"⟩
          { order_number := "X", order_date := some ⟨5, "z"⟩ } ⟨[], []⟩ ∧
    ((create_order_from_webhook ⟨0, "a"⟩
          { order_number := "X", order_date := some ⟨5, "z"⟩ } ⟨[], []⟩).orders.filter
        (fun o => o.order_number == "X")).length = 1 :=
  C1_replay_idempotent_with_explicit_date
    { order_number := "X", order_date := some ⟨5, "z"⟩ } ⟨0, "a"⟩ ⟨1, "b"⟩ ⟨[], []⟩ rfl rfl

/-- C2: an envelope whose processing raises on every attempt is
re-enqueued (alone, at the back) after each of the first `max_retries`
failures — so after `k ≤ max_retries` failing passes it is back in the
queue with `retry_count = k` and nothing else has changed — and the
`max_retries + 1`-st failure moves it to the dead-letter queue with
`retry_count = max_retries + 1` and a non-null error, incrementing
`total_failed` exactly once. -/
theorem C2_retry_then_dead_letter (maxR cap tp f : Nat) (pl err : String) (t : Nat)
    (hcap : 1 ≤ cap) :
    (∀ k, k ≤ maxR →
      (worker_step maxR cap (fun _ => Except.error err) t)^[k]
          ⟨[⟨pl, 0⟩], [], tp, f⟩ = ⟨[⟨pl, k⟩], [], tp, f⟩) ∧
    (worker_step maxR cap (fun _ => Except.error err) t)^[maxR + 1]
        ⟨[⟨pl, 0⟩], [], tp, f⟩
      = ⟨[], [⟨⟨pl, maxR + 1⟩, some err, t⟩], tp, f + 1⟩ := by
  have h1 : ∀ k, k ≤ maxR →
      (worker_step maxR cap (fun _ => Except.error err) t)^[k]
          ⟨[⟨pl, 0⟩], [], tp, f⟩ = ⟨[⟨pl, k⟩], [], tp, f⟩ := by
    intro k
    induction k with
    | zero => intro _; rfl
    | succ n ih =>
        intro hk
        rw [Function.iterate_succ_apply', ih (Nat.le_of_succ_le hk)]
        simp [worker_step, hk]

  refine ⟨h1, ?_⟩
  rw [Function.iterate_succ_apply', h1 maxR le_rfl]
  simp [worker_step, dlAppend, Nat.lt_irrefl]
  intro hc
  exact absurd hcap (by omega)

/-- C2 witness: the source configuration `max_retries = 3`,
dead-letter capacity 1000; the envelope dead-letters on the 4th failing
pass with `retry_count = 4` and the error recorded. -/
theorem C2_witness :
    (worker_step 3 1000 (fun _ => Except.error "boom") 7)^[2]
        ⟨[⟨"p", 0⟩], [], 0, 0⟩ = ⟨[⟨"p", 2⟩], [], 0, 0⟩ ∧
    (worker_step 3 1000 (fun _ => Except.error "boom") 7)^[4]
        ⟨[⟨"p", 0⟩], [], 0, 0⟩ = ⟨[], [⟨⟨"p", 4⟩, some "boom", 7⟩], 0, 0 + 1⟩ :=
  ⟨(C2_retry_then_dead_letter 3 1000 0 0 "p" "boom" 7 (by decide)).1 2 (by decide),
   (C2_retry_then_dead_letter 3 1000 0 0 "p" "boom" 7 (by decide)).2⟩

/-- C4 counterexample: a webhook payload with `price = 9.999` is stored
with price exactly `9.999`, not its 2-decimal rounding `10.00` — the
`round_currency` validator does not run on the webhook path. -/
theorem C4_unrounded_storage_counterexample :
    ((create_order_from_webhook ⟨0, "a"⟩
        { order_number := "X", price := some (9999 / 1000) } ⟨[], []⟩).orders.map
        Order.price) = [some (9999 / 1000)] ∧
    round2 (9999 / 1000) = 10 ∧ ((9999 / 1000 : ℚ) ≠ 10) := by
  refine ⟨?_, ?_, by norm_num⟩
  · have ht : truthyQ (some (9999 / 1000 : ℚ)) = true := by simp [truthyQ]
    simp [create_order_from_webhook, _get_order_by_number, _create_new_order, orderOfData,
          _map_webhook_to_order, pyOrQD, ht]
  · rw [round2]
    norm_num [round_eq, Int.floor_eq_iff]

/-- C4 amended: on the webhook path a fresh order stores the payload's
price exactly as parsed — unrounded; 2-decimal rounding
(`round_currency`) exists only on the `OrderBase`-derived schemas, which
the webhook pipeline does not use. -/
theorem C4_webhook_path_stores_unrounded (p : WebhookPayload) (now : DateTime) (db : Db)
    (q : ℚ) (hq : p.price = some q) (h0 : q ≠ 0)
    (hfresh : _get_order_by_number db p.order_number = none) :
    ((create_order_from_webhook now p db).orders.map Order.price).getLast?
        = some (some q) ∧
    round_currency p.price = some (round2 q) := by
  have hnum : (_map_webhook_to_order now p).order_number = p.order_number := rfl
  have h1 : create_order_from_webhook now p db
      = _create_new_order db (_map_webhook_to_order now p) := by
    simp only [create_order_from_webhook]
    rw [hnum, hfresh]
  have hpr : (_map_webhook_to_order now p).price = q := by
    simp [_map_webhook_to_order, pyOrQD, truthyQ, hq, h0]
  constructor
  · rw [h1]
    simp [_create_new_order, orderOfData, hpr]
  · simp [round_currency, hq]

/-- C4 witness: price `9.999` over the empty store. -/
theorem C4_witness :
    ((create_order_from_webhook ⟨0, "a"⟩
        { order_number := "X", price := some (9999 / 1000) } ⟨[], []⟩).orders.map
        Order.price).getLast? = some (some (9999 / 1000)) ∧
    round_currency (some (9999 / 1000) : Option ℚ) = some (round2 (9999 / 1000)) :=
  C4_webhook_path_stores_unrounded { order_number := "X", price := some (9999 / 1000) }
    ⟨0, "a"⟩ ⟨[], []⟩ (9999 / 1000) rfl (by norm_num) rfl

/-- C8 counterexample: with two dead-letter entries (the second the more
recent) and limit 2, the listing returns them oldest first — the head is
the *older* entry, contradicting "most recent first"; and with limit 0
the Python slice `[-0:]` returns the whole list, not 0 entries. -/
theorem C8_order_counterexample :
    get_dead_letters [⟨⟨"m1", 4⟩, some "e1", 1⟩, ⟨⟨"m2", 4⟩, some "e2", 2⟩] 2
      = [⟨⟨"m1", 4⟩, some "e1", 1⟩, ⟨⟨"m2", 4⟩, some "e2", 2⟩] ∧
    (get_dead_letters [⟨⟨"m1", 4⟩, some "e1", 1⟩, ⟨⟨"m2", 4⟩, some "e2", 2⟩] 2).head?
      ≠ some ⟨⟨"m2", 4⟩, some "e2", 2⟩ ∧
    (get_dead_letters [⟨⟨"m0", 4⟩, some "e0", 0⟩] 0).length = 1 := by
  refine ⟨by decide, by decide, by decide⟩

/-- C8 amended: for `limit ≥ 1` the listing returns the
`min(limit, size)` **most recent** entries, but as a suffix of the
append-ordered deque — oldest first, most recent last. -/
theorem C8_dead_letter_listing (dl : List DeadEntry) (limit : Nat) (h : 1 ≤ limit) :
    (get_dead_letters dl limit).length = min limit dl.length ∧
    get_dead_letters dl limit <:+ dl := by
  unfold get_dead_letters
  rw [if_neg (by omega)]
  refine ⟨?_, List.drop_suffix _ _⟩
  rw [List.length_drop]
  omega

/-- C8 witness: two entries, limit 1. -/
theorem C8_witness :
    (get_dead_letters [⟨⟨"m1", 4⟩, some "e1", 1⟩, ⟨⟨"m2", 4⟩, some "e2", 2⟩] 1).length
      = min 1 ([⟨⟨"m1", 4⟩, some "e1", 1⟩, ⟨⟨"m2", 4⟩, some "e2", 2⟩] :
          List DeadEntry).length ∧
    get_dead_letters [⟨⟨"m1", 4⟩, some "e1", 1⟩, ⟨⟨"m2", 4⟩, some "e2", 2⟩] 1
      <:+ [⟨⟨"m1", 4⟩, some "e1", 1⟩, ⟨⟨"m2", 4⟩, some "e2", 2⟩] :=
  C8_dead_letter_listing [⟨⟨"m1", 4⟩, some "e1", 1⟩, ⟨⟨"m2", 4⟩, some "e2", 2⟩] 1
    (by decide)

/-- C6: total defaulting is format-dependent.  Freeform: whenever the
`Price` regex captures a string that parses to `q` and the `Total` regex
captures nothing, a successful parse returns a dict whose `total` (and
`price`) is `q`.  Structured: when `total`, `total_price` and `amount`
are all absent, the mapped `total` stays unset — never copied from
price. -/
theorem C6_total_defaulting :
    (∀ (now : DateTime) (text : String) (d : Dict) (s : String) (q : ℚ),
        findNumCap "Price" text.data = some s → pyFloat s = some q →
        findNumCap "Total" text.data = none →
        parse_refract_message now text = Except.ok d →
        dictGet? d "price" = some (PyVal.f q) ∧ dictGet? d "total" = some (PyVal.f q)) ∧
    (∀ (now : DateTime) (p : WebhookPayload),
        p.total = none → p.total_price = none → p.amount = none →
        (_map_webhook_to_order now p).total = none) := by
  constructor
  · intro now text d s q hp hq ht hok
    simp only [parse_refract_message, hp, hq, ht, stepPrice, stepNum] at hok
    split at hok
    · simp at hok
    · rename_i d' heq
      injection hok with hok
      subst hok
      have hcomm : ∀ k, k ≠ "commission" → dictGet? d' k = dictGet?
          (dictSet (setOpt "email" ((findLabel1 "Email" text.data).map PyVal.s)
            (setOpt "order_number" ((findOrderNumber text.data).map PyVal.s)
              (setOpt "proxy_list"
                ((findLabelAlt ["Proxy Details", "Proxy List", "Proxy"] text.data).map
                  PyVal.s)
                (setOpt "profile" ((findLabel1 "Profile" text.data).map PyVal.s)
                  (dictSet
                    (dictSet (setOpt "product"
                      ((findLabel1 "Product" text.data).map PyVal.s) [])
                      "price" (PyVal.f q))
                    "total" (PyVal.f q))))))
            "quantity"
            (PyVal.i (((reSearchDigits (("Quantity").data ++ ['\n']) text.data).getD 1 :
              Nat) : Int))) k :=
        fun k hk => stepNum_ok_get _ _ _ _ _ heq hk
      constructor
      · simp [setOpt_get_ne, dictGet?_dictSet_ne, dictGet?_dictSet_self,
              hcomm "price" (by simp)]
      · simp [setOpt_get_ne, dictGet?_dictSet_ne, dictGet?_dictSet_self,
              hcomm "total" (by simp)]
  · intro now p h1 h2 h3
    simp [_map_webhook_to_order, pyOrQ, truthyQ, h1, h2, h3]

/-- C6 witness: the freeform body `"Product\nA\nPrice\n$5\nEmail\ne@x.com"`
(Price label, no Total label) parses with `total = price = 5`; a payload
with no `total`, `total_price` or `amount` maps to an unset total. -/
theorem C6_witness :
    dictGet? ((parse_refract_message ⟨0, "a"⟩
        "Product\nA\nPrice\n$5\nEmail\ne@x.com").toOption.getD []) "price"
      = some (PyVal.f 5) ∧
    dictGet? ((parse_refract_message ⟨0, "a"⟩
        "Product\nA\nPrice\n$5\nEmail\ne@x.com").toOption.getD []) "total"
      = some (PyVal.f 5) ∧
    (_map_webhook_to_order ⟨0, "a"⟩ { order_number := "X" }).total = none :=
  ⟨(C6_total_defaulting.1 ⟨0, "a"⟩ "Product\nA\nPrice\n$5\nEmail\ne@x.com" _ "5" 5
      (by decide) (by decide) (by decide) rfl).1,
   (C6_total_defaulting.1 ⟨0, "a"⟩ "Product\nA\nPrice\n$5\nEmail\ne@x.com" _ "5" 5
      (by decide) (by decide) (by decide) rfl).2,
   C6_total_defaulting.2 ⟨0, "a"⟩ { order_number := "X" } rfl rfl rfl⟩

/-- C3 counterexample: the freeform body `"Price\n$5\nEmail\na@b.c"` has
no `Order Number` label in any format; the normalizer does not raise —
it returns a field map with no `order_number` key. -/
theorem C3_missing_key_no_error_counterexample :
    parsedOk (parse_webhook_content (fun _ => none) ⟨0, "a"⟩
        "Price\n$5\nEmail\na@b.c" "") = true ∧
    parsedGet (parse_webhook_content (fun _ => none) ⟨0, "a"⟩
        "Price\n$5\nEmail\na@b.c" "") "order_number" = none := by
  refine ⟨by decide, by decide⟩

/-- C3 amended: the normalizer raises only when the body matches no known
format (no JSON parse, no brace-delimited body, no freeform indicator);
a body that positively matches the freeform format is parsed by
`parse_refract_message` and returned as-is — a missing `order_number` is
passed through, to be rejected downstream when the map is validated into
`WebhookPayload` (whose only required field is `order_number`). -/
theorem C3_parse_error_only_when_no_format :
    (∀ (loads : String → Option LoadedJson) (now : DateTime) (content : String),
        looksJson content = false → is_text_webhook content = true →
        parse_webhook_content loads now content "" = parse_refract_message now content) ∧
    (∀ (loads : String → Option LoadedJson) (now : DateTime) (content ct : String),
        hasSub (pyLower ct).data ("json").data = false →
        looksJson content = false → is_text_webhook content = false →
        loads content = none →
        parse_webhook_content loads now content ct =
          Except.error "Could not parse webhook content as JSON or text format") := by
  constructor
  · intro loads now content hjson htext
    simp [parse_webhook_content, hjson, htext]
    intro h
    exact absurd h (by decide)
  · intro loads now content ct hct hjson htext hloads
    simp [parse_webhook_content, tryLoads, hct, hjson, htext, hloads]

/-- C3 witness: the freeform body above is routed to the freeform parser
and returned without error; a body matching nothing raises the final
`ValueError`. -/
theorem C3_witness :
    parse_webhook_content (fun _ => none) ⟨0, "a"⟩ "Price\n$5\nEmail\na@b.c" ""
      = parse_refract_message ⟨0, "a"⟩ "Price\n$5\nEmail\na@b.c" ∧
    parse_webhook_content (fun _ => none) ⟨0, "a"⟩ "no labels here" "text/plain"
      = Except.error "Could not parse webhook content as JSON or text format" :=
  ⟨C3_parse_error_only_when_no_format.1 (fun _ => none) ⟨0, "a"⟩
      "Price\n$5\nEmail\na@b.c" (by decide) (by decide),
   C3_parse_error_only_when_no_format.2 (fun _ => none) ⟨0, "a"⟩
      "no labels here" "text/plain" (by decide) (by decide) (by decide) rfl⟩

end ROMS
